import Mathlib

/-!
Verification development for the `stapply-ai/evals` repository.

The repository has two source files:
* `python/evals/file_upload.py` — browser-automation actions
  (`playwright_file_upload`, `playwright_combobox_select`) registered as
  agent tools; the DOM is reached only through a page-automation capability
  (queries, clicks, waits, evaluates), which we model as oracles supplied in
  an environment record, while the control flow of the Python functions is
  embedded faithfully.
* `python/result_generator.py` — the `EvaluationResult` store
  (`EvalName.from_str`, `get_eval_subdir`, `generate_result_filename`,
  `save_result`, `_format_time`, `list_results`).

Modelling conventions:
* Python strings are Lean `String`; `s.lower()` is `pyLower` (ASCII case
  folding, which covers every string the code and spec mention),
  `a in b` is `pyIn` (substring containment), `startswith`/`endswith`
  are prefix/suffix tests on the underlying character lists.
* Python floats in `_format_time` are modelled as exact rationals; the
  branch thresholds (60, 3600) and all boundary inputs of the spec are
  exactly representable, so the branch structure is unaffected.
* DOM element handles are `Elem` records carrying the attributes the code
  reads (tag name, `type` attribute, visibility, hiddenness) plus flags
  recording whether each read/interaction on that element raises; a raised
  exception is handled exactly where the Python `try/except` handles it.
* Page-level interactions are logged as a `PageOp` trace so that
  "no page interaction happened" is a provable statement; attribute and
  visibility reads on an already-held element handle are modelled as pure
  field reads of `Elem`.
* The file system seen by the result store is an association list from
  path to content; `open(path, "w")` replaces any previous entry.
-/

/-- Python `s.lower()` (ASCII case folding). -/
def pyLower (s : String) : String :=
  String.mk (s.data.map Char.toLower)

/-- Python `needle in hay` for strings: substring containment. -/
def pyIn (needle hay : String) : Bool :=
  decide (needle.data <:+: hay.data)

/-- Python `s.startswith(pre)`. -/
def pyStartsWith (s pre : String) : Bool :=
  decide (pre.data <+: s.data)

/-- Python `s.endswith(suf)`. -/
def pyEndsWith (s suf : String) : Bool :=
  decide (suf.data <:+ s.data)

/-- Python truthiness of an optional string (`None` and `""` are falsy). -/
def pyTruthy : Option String → Bool
  | none => false
  | some s => !s.isEmpty

/-! ## Combobox option matching (`playwright_combobox_select`, lines 801-810)

```
text_match = option_text and (
    params.value.lower() in option_text.lower()
    or option_text.lower().startswith(params.value.lower())
    or option_text.lower() == params.value.lower()
)
value_match = (
    option_value
    and params.value.lower() == option_value.lower()
)
if text_match or value_match:
```
-/

/-- The `text_match` predicate of the combobox option scan. -/
def text_match (value : String) (optionText : Option String) : Bool :=
  pyTruthy optionText &&
    (match optionText with
     | none => false
     | some t =>
         pyIn (pyLower value) (pyLower t)
         || pyStartsWith (pyLower t) (pyLower value)
         || pyLower t == pyLower value)

/-- The `value_match` predicate of the combobox option scan. -/
def value_match (value : String) (optionValue : Option String) : Bool :=
  pyTruthy optionValue &&
    (match optionValue with
     | none => false
     | some v => pyLower value == pyLower v)

/-- Python `text_match or value_match`: whether a dropdown option is accepted for
the target `value`. -/
def optionMatches (value : String) (optionText optionValue : Option String) : Bool :=
  text_match value optionText || value_match value optionValue

/-- Post-selection verification of the combobox input value
(lines 862-865): overlap in either direction of containment. -/
def comboboxVerifyOverlap (value finalValue : String) : Bool :=
  pyIn (pyLower value) (pyLower finalValue)
  || pyIn (pyLower finalValue) (pyLower value)

/-! ## File upload pipeline (`playwright_file_upload`)

The tagged outcome returned to the agent framework: `ActionResult` with
either `extracted_content` (success) or `error` (failure). -/

/-- The `ActionResult` model: the tagged outcome of a custom action. -/
inductive ActionOutcome where
  | success (extractedContent : String)
  | failure (error : String)
deriving DecidableEq

/-- A DOM element handle, carrying the attributes the code reads and, for
each read/interaction performed on the handle, whether that call raises
(`…Throws`).  Attribute and visibility reads are pure field accesses of
this record; they are not logged in the page trace. -/
structure Elem where
  tagName : String
  typeAttr : Option String
  visible : Bool
  hidden : Bool
  /-- Whether `is_visible()` raises. -/
  visThrows : Bool := false
  /-- Whether `is_hidden()` raises. -/
  hidThrows : Bool := false
  /-- Whether `get_attribute("type")` raises. -/
  attrThrows : Bool := false
  /-- Whether `evaluate("el => el.tagName")` raises. -/
  tagEvalThrows : Bool := false
  /-- Whether `click()` raises. -/
  clickThrows : Bool := false
deriving DecidableEq

/-- Page-level interactions, in the order the code performs them. -/
inductive PageOp where
  | waitLoadState (state : String)
  | evaluate (script : String)
  | queryAll (sel : String)
  | queryOne (sel : String)
  | elemClick
  | screenshot (name : String)
  | content
  | setInputFiles (path : String)
  | elemEvaluate (script : String)
deriving DecidableEq

/-- Result of the verification read-back
`el => el.files ? Array.from(el.files).map(f => f.name) : []`:
either the list of selected-file names, or the evaluate call raised. -/
inductive VerifyRead where
  | ok (files : List String)
  | err
deriving DecidableEq

/-- Environment of one `playwright_file_upload` call: the action
parameters together with the responses of the page-automation collaborator
at each interaction point (in program order). -/
structure UploadEnv where
  /-- The `params.file_path` argument. -/
  filePath : String
  /-- The `params.selector` argument. -/
  selector : String
  /-- Whether `playwright_page` is connected (not `None`). -/
  pageConnected : Bool
  /-- Result of `os.path.exists(params.file_path)`. -/
  fileExists : Bool
  /-- the `networkidle` load-state wait succeeds (otherwise the code
  degrades to a `domcontentloaded` wait). -/
  networkidleOk : Bool
  /-- the scroll-to-bottom evaluate succeeds (otherwise the
  scroll-to-top evaluate is skipped). -/
  scrollFirstOk : Bool
  /-- the first diagnostic query (`input[type="file"]`) succeeds
  (otherwise the diagnostic block is aborted). -/
  debugQ1Ok : Bool
  /-- the second diagnostic query (`button, div, span, a`) succeeds. -/
  debugQ2Ok : Bool
  /-- result of `query_selector_all(params.selector)`;
  `none` means the call raised. -/
  primaryQuery : Option (List Elem)
  /-- result of re-querying `input[type="file"]` after clicking a
  trigger element; `none` means the call raised. -/
  afterClickFileInputs : Option (List Elem)
  /-- results of `query_selector_all` for each fallback selector;
  `none` means the call raised. -/
  fallbackQuery : String → Option (List Elem)
  /-- Whether `page.content()` succeeds in the diagnostic-capture branch. -/
  contentOk : Bool
  /-- result of evaluating `document.body.innerText.trim()`;
  `none` means the call raised. -/
  bodyText : Option String
  /-- Whether `set_input_files` succeeds. -/
  setFilesOk : Bool
  /-- The `str(e)` text of the `set_input_files` exception, when it raises. -/
  setFilesErr : String
  /-- the verification read-back. -/
  verify : VerifyRead

/-- Selection among the matches of the primary selector (lines 393-407):
first match whose visibility check returns `True`; a raising visibility
check skips that match; if no match is visible, the first match
unconditionally. -/
def selectFromMatches (ms : List Elem) : Option Elem :=
  match ms.find? (fun e => !e.visThrows && e.visible) with
  | some e => some e
  | none => ms.head?

/-- Classification of the selected candidate (lines 410-415): a direct
file input iff `tag_name.lower() == "input" and input_type == "file"`,
with a raising read landing in the surrounding `except`. -/
def isDirectFileInput (e : Elem) : Bool :=
  !e.tagEvalThrows && !e.attrThrows
  && pyLower e.tagName == "input" && e.typeAttr == some "file"

/-- Primary-selector stage (lines 365-431): returns
(`file_input`, `selected_element`). -/
def primaryResolve (pq : Option (List Elem)) : Option Elem × Option Elem :=
  match pq with
  | none => (none, none)
  | some ms =>
      match selectFromMatches ms with
      | none => (none, none)
      | some e => (if isDirectFileInput e then some e else none, some e)

/-- After clicking the trigger element, the first re-queried file input
that is not hidden is used (lines 451-464); raising checks skip the
match. -/
def pickAfterClick (l : List Elem) : Option Elem :=
  l.find? (fun e => !e.visThrows && !e.hidThrows && !e.hidden)

/-- The fixed, ordered fallback selector list (lines 472-485). -/
def fallback_selectors : List String :=
  [ "input[type=\"file\"]"
  , "#_systemfield_resume"
  , "input[id*=\"systemfield\"]"
  , "input[id*=\"resume\"]"
  , "input[name*=\"file\"]"
  , "input[name*=\"resume\"]"
  , "input[name*=\"upload\"]"
  , "input[accept*=\"pdf\"]"
  , "input[accept*=\"application\"]"
  , ".file-input input"
  , "[data-testid*=\"file\"] input"
  , "[data-testid*=\"upload\"] input" ]

/-- Scan of one fallback selector's matches (lines 498-520), threading
the current value of the `file_input` variable (`provisional`).  Per
match: a raising `get_attribute("type")` skips the match; a match of
type `file` is assigned to `file_input` *before* its `is_hidden()` read,
so when that read raises the scan continues with the assignment left in
place — a later accepted match overwrites it, and when nothing later is
accepted the last such provisional assignment is the final value; when
the read succeeds the loop breaks with that match.  A non-file match
reads `is_hidden()` before assigning: a raise there skips the match, a
non-hidden match is assigned and breaks, a hidden one is passed over. -/
def scanFallbackMatches : List Elem → Option Elem → Option Elem
  | [], provisional => provisional
  | e :: rest, provisional =>
      if e.attrThrows then scanFallbackMatches rest provisional
      else if e.typeAttr == some "file" then
        (if e.hidThrows then scanFallbackMatches rest (some e) else some e)
      else if e.hidThrows then scanFallbackMatches rest provisional
      else if !e.hidden then some e
      else scanFallbackMatches rest provisional

/-- Fallback stage over a list of selectors (lines 487-527): query each
selector in order and scan its matches with `file_input` starting unset;
the outer loop stops at the first selector after which `file_input` is
set (line 522), including a provisional assignment; a raising query
moves on to the next selector.  Also returns the page trace of the
queries attempted. -/
def fallbackGo (q : String → Option (List Elem)) : List String → Option Elem × List PageOp
  | [] => (none, [])
  | s :: rest =>
      match (q s).bind (fun ms => scanFallbackMatches ms none) with
      | some e => (some e, [PageOp.queryAll s])
      | none => ((fallbackGo q rest).1, PageOp.queryAll s :: (fallbackGo q rest).2)

/-- The fallback stage run on the fixed selector list. -/
def fallbackStage (q : String → Option (List Elem)) : Option Elem × List PageOp :=
  fallbackGo q fallback_selectors

/-- The acceptance test the per-selector scan reduces to when no check
on the scanned matches raises: an input of type `file` (hidden or not),
or any non-hidden element. -/
def acceptsCleanly (e : Elem) : Bool :=
  e.typeAttr == some "file" || !e.hidden

/-- Error message returned when no file input was resolved (line 577). -/
def notFoundMsg : String :=
  "No file input element found on the page. Make sure you are on a page with a file upload form."

/-- Python `", ".join(files)`. -/
def joinComma : List String → String
  | [] => ""
  | [s] => s
  | s :: rest => s ++ ", " ++ joinComma rest

/-- The verification stage after `set_input_files` (lines 609-631):
a non-empty read-back yields `Success` naming the files, an empty
read-back yields `Failure`, a raising read-back yields a degraded
`Success`. -/
def uploadVerifyOutcome (filePath : String) : VerifyRead → ActionOutcome
  | .ok files =>
      if files.isEmpty then
        .failure "File upload may have failed - no files detected in input after upload attempt"
      else
        .success ("File(s) uploaded successfully using Playwright: " ++ joinComma files)
  | .err =>
      .success ("File upload command executed for: " ++ filePath
        ++ ". Verification failed but upload likely succeeded.")

/-- Page trace of the readiness wait, dynamic-content nudge, iframe check
and diagnostic queries (lines 183-363). -/
def preambleOps (env : UploadEnv) : List PageOp :=
  [PageOp.waitLoadState "networkidle"]
  ++ (if env.networkidleOk then [] else [PageOp.waitLoadState "domcontentloaded"])
  ++ [PageOp.evaluate "dynamic-content-triggers"]
  ++ [PageOp.evaluate "scroll-to-bottom"]
  ++ (if env.scrollFirstOk then [PageOp.evaluate "scroll-to-top"] else [])
  ++ [PageOp.queryAll "iframe"]
  ++ [PageOp.queryAll "input[type=\"file\"]"]
  ++ (if env.debugQ1Ok then
        [PageOp.queryAll "button, div, span, a"]
        ++ (if env.debugQ2Ok then
              [PageOp.queryOne "input[id*=\"systemfield\"][id*=\"resume\"][type=\"file\"]"]
            else [])
      else [])

/-- Click-to-reveal stage (lines 433-467): performed only when the
primary stage selected an element that is not a direct file input. -/
def clickStage (env : UploadEnv) (e : Elem) : Option Elem × List PageOp :=
  if e.clickThrows then (none, [PageOp.elemClick])
  else
    match env.afterClickFileInputs with
    | none => (none, [PageOp.elemClick, PageOp.queryAll "input[type=\"file\"]"])
    | some l => (pickAfterClick l, [PageOp.elemClick, PageOp.queryAll "input[type=\"file\"]"])

/-- Diagnostic capture when no file input was resolved (lines 534-578):
serialize the page, read the visible text, and screenshot only when the
text is non-empty and longer than 50 characters; every raising call is
swallowed and the `Failure` outcome is returned regardless. -/
def notFoundStage (env : UploadEnv) : ActionOutcome × List PageOp :=
  (.failure notFoundMsg,
    if !env.contentOk then [PageOp.content]
    else
      [PageOp.content, PageOp.evaluate "body-innerText"]
      ++ (match env.bodyText with
          | none => []
          | some t =>
              if !t.isEmpty && t.length > 50 then
                [PageOp.screenshot "file_input_not_found"]
              else []))

/-- Upload-and-verify stage once a file input is resolved
(lines 582-631): screenshot, `set_input_files` (a raising call
propagates to the outermost handler, which converts it to `Failure`),
then the verification read-back. -/
def foundStage (env : UploadEnv) : ActionOutcome × List PageOp :=
  if !env.setFilesOk then
    (.failure ("❌ Playwright file upload failed: " ++ env.setFilesErr),
      [PageOp.screenshot "file_input_found", PageOp.setInputFiles env.filePath])
  else
    (uploadVerifyOutcome env.filePath env.verify,
      [PageOp.screenshot "file_input_found", PageOp.setInputFiles env.filePath,
        PageOp.elemEvaluate "input-files"])

/-- The full `playwright_file_upload` action: outcome returned to the
caller and the trace of page interactions performed.  The function is
total: every exception of the Python code is either handled where its
`try/except` handles it or converted to a `Failure` outcome by the
outermost handler. -/
def playwright_file_upload (env : UploadEnv) : ActionOutcome × List PageOp :=
  if !env.pageConnected then
    (.failure "Playwright not connected. Run setup first.", [])
  else if !env.fileExists then
    (.failure ("File not found: " ++ env.filePath), [])
  else
    let ops0 := preambleOps env ++ [PageOp.queryAll env.selector]
    let pr := primaryResolve env.primaryQuery
    let cl : Option Elem × List PageOp :=
      match pr.1, pr.2 with
      | none, some e => clickStage env e
      | _, _ => (pr.1, [])
    let fb : Option Elem × List PageOp :=
      match cl.1 with
      | some e => (some e, [])
      | none => fallbackStage env.fallbackQuery
    match fb.1 with
    | none =>
        let nf := notFoundStage env
        (nf.1, ops0 ++ cl.2 ++ fb.2 ++ nf.2)
    | some _ =>
        let fd := foundStage env
        (fd.1, ops0 ++ cl.2 ++ fb.2 ++ fd.2)

/-! ## Result generator (`result_generator.py`) -/

/-- The `EvalName` enum. -/
inductive EvalName where
  | AUTH_APPLY
  | FILE_UPLOAD
deriving DecidableEq

/-- The `member.value` string of each enum member. -/
def EvalName.value : EvalName → String
  | .AUTH_APPLY => "auth_apply"
  | .FILE_UPLOAD => "file_upload"

/-- The `member.name` string of each enum member. -/
def EvalName.memberName : EvalName → String
  | .AUTH_APPLY => "AUTH_APPLY"
  | .FILE_UPLOAD => "FILE_UPLOAD"

/-- Iteration order of the enum members. -/
def EvalName.members : List EvalName := [.AUTH_APPLY, .FILE_UPLOAD]

/-- The normalization performed by `EvalName.from_str`:
`name.replace("-", "_").lower()`. -/
def normalizeEvalName (name : String) : String :=
  pyLower (String.mk (name.data.map (fun c => if c = '-' then '_' else c)))

/-- Model of `EvalName.from_str` (lines 31-36): return the first member whose
`value` or lowercased `name` equals the normalized input; otherwise raise
`ValueError`, modelled as the `error` branch of `Except`. -/
def EvalName.from_str (name : String) : Except String EvalName :=
  let norm := normalizeEvalName name
  match EvalName.members.find?
      (fun m => m.value == norm || pyLower m.memberName == norm) with
  | some m => .ok m
  | none => .error (name ++ " is not a recognized evaluation name")

/-- Model of `get_eval_subdir` (lines 57-68), reduced to the subdirectory name it
chooses: an `EvalName` argument contributes its `value`; a string
argument is parsed with `from_str` and canonicalized to the member value,
and on `ValueError` the raw string itself is used.  The function never
propagates the parse failure. -/
def get_eval_subdir_name : Sum EvalName String → String
  | .inl e => e.value
  | .inr s =>
      match EvalName.from_str s with
      | .ok m => m.value
      | .error _ => s

/-- Path of the per-evaluation subdirectory under the results root. -/
def evalSubdirPath (e : Sum EvalName String) : String :=
  "results/" ++ get_eval_subdir_name e

/-- Python `str.rstrip()`: drop trailing whitespace. -/
def pyRstrip (s : String) : String :=
  String.mk ((s.data.reverse.dropWhile Char.isWhitespace).reverse)

/-- The model-name sanitization of `generate_result_filename`
(lines 88-90): keep alphanumeric characters, spaces, hyphens and
underscores, then strip trailing whitespace.  (Python `c.isalnum()` is
Unicode-aware; ASCII alphanumerics cover the model names involved.) -/
def sanitizeModelName (s : String) : String :=
  pyRstrip (String.mk (s.data.filter
    (fun c => c.isAlphanum || c = ' ' || c = '-' || c = '_')))

/-- A wall-clock timestamp at second resolution. -/
structure Timestamp where
  year : Nat
  month : Nat
  day : Nat
  hour : Nat
  minute : Nat
  second : Nat
deriving DecidableEq

/-- Zero-pad a number to two digits, as `strftime` field formatting. -/
def pad2 (n : Nat) : String :=
  if n < 10 then "0" ++ toString n else toString n

/-- Zero-pad a number to four digits, as `strftime("%Y")`. -/
def pad4 (n : Nat) : String :=
  if n < 10 then "000" ++ toString n
  else if n < 100 then "00" ++ toString n
  else if n < 1000 then "0" ++ toString n
  else toString n

/-- Python `timestamp.strftime("%Y%m%d_%H%M%S")` (line 93). -/
def strftimeCompact (t : Timestamp) : String :=
  pad4 t.year ++ pad2 t.month ++ pad2 t.day ++ "_"
    ++ pad2 t.hour ++ pad2 t.minute ++ pad2 t.second

/-- Model of `generate_result_filename` (lines 70-95): sanitized model name plus
compact timestamp, with a `.txt` extension.  The `eval_name` parameter is
unused by the source. -/
def generate_result_filename (model : String) (t : Timestamp) : String :=
  sanitizeModelName model ++ "_" ++ strftimeCompact t ++ ".txt"

/-- The file path `save_result` writes to (lines 125-127). -/
def save_result_filepath (evalName : Sum EvalName String) (model : String)
    (t : Timestamp) : String :=
  evalSubdirPath evalName ++ "/" ++ generate_result_filename model t

/-- The file system visible to the result store: an association list from
path to file content, with at most one entry per path. -/
def FS := List (String × String)

/-- Python `open(path, "w")` followed by a full write: any previous content at
the path is replaced. -/
def fsWrite (fs : FS) (p c : String) : FS :=
  List.filter (fun e => !(e.1 == p)) fs ++ [(p, c)]

/-- Model of `save_result` (lines 97-192), restricted to its file-system effect:
derive the path from the evaluation subdirectory, the sanitized model
name and the compact timestamp, write the rendered report there
(overwriting), and return the path.  The rendered report text is passed
as an opaque `content` argument; no claim inspects it. -/
def save_result (fs : FS) (evalName : Sum EvalName String) (model : String)
    (t : Timestamp) (content : String) : FS × String :=
  let filepath := save_result_filepath evalName model t
  (fsWrite fs filepath content, filepath)

/-- Insert into a lexicographically sorted list of strings. -/
def strInsert (x : String) : List String → List String
  | [] => [x]
  | y :: ys => if x ≤ y then x :: y :: ys else y :: strInsert x ys

/-- Python `sorted` on strings, as an insertion sort. -/
def sortStrings : List String → List String
  | [] => []
  | x :: xs => strInsert x (sortStrings xs)

/-- Model of `list_results` (lines 264-284) for a given evaluation: the `*.txt`
files in that evaluation subdirectory, sorted. -/
def list_results (fs : FS) (evalName : Sum EvalName String) : List String :=
  sortStrings ((fs.map Prod.fst).filter
    (fun p => pyStartsWith p (evalSubdirPath evalName ++ "/") && pyEndsWith p ".txt"))

/-- Model of `get_latest_result` (lines 286-296): the last element of the sorted
listing. -/
def get_latest_result (fs : FS) (evalName : Sum EvalName String) : Option String :=
  (list_results fs evalName).getLast?

/-- Round to the nearest integer, ties to even, as float-to-decimal
formatting does. -/
def roundHalfEven (x : ℚ) : ℤ :=
  let fl : ℤ := Int.floor x
  let fr : ℚ := x - fl
  if fr < 1/2 then fl
  else if 1/2 < fr then fl + 1
  else if fl % 2 = 0 then fl else fl + 1

/-- Render a nonnegative count of hundredths as a decimal with two
fractional digits. -/
def hundredthsStr (n : Nat) : String :=
  toString (n / 100) ++ "." ++ pad2 (n % 100)

/-- Python `f"{x:.2f}"` on an exact rational value. -/
def format2f (q : ℚ) : String :=
  let h := roundHalfEven (q * 100)
  if h < 0 then "-" ++ hundredthsStr (-h).toNat else hundredthsStr h.toNat

/-- Model of `_format_time` (lines 253-262); `save_result` inlines the identical
branching at lines 130-137.  Durations are modelled as exact rationals;
the thresholds 60 and 3600 are exactly representable floats, so the
branch structure over floats is the same. -/
def format_time (seconds : ℚ) : String :=
  if seconds < 60 then format2f seconds ++ " seconds"
  else if seconds < 3600 then format2f (seconds / 60) ++ " minutes"
  else format2f (seconds / 3600) ++ " hours"

/-! ## Concrete pages and environments used as witnesses and
counterexamples -/

/-- A visible text input, e.g. `<input type="text" name="filename">`,
which the fallback selector `input[name*="file"]` matches. -/
def cexTextInput : Elem :=
  { tagName := "INPUT", typeAttr := some "text", visible := true, hidden := false }

/-- A hidden file input, e.g. `<input type="file" name="file" hidden>`. -/
def cexHiddenFileInput : Elem :=
  { tagName := "INPUT", typeAttr := some "file", visible := false, hidden := true }

/-- A visible direct file input. -/
def cexVisibleFileInput : Elem :=
  { tagName := "INPUT", typeAttr := some "file", visible := true, hidden := false }

/-- A visible non-input element (a styled upload button). -/
def cexUploadButton : Elem :=
  { tagName := "BUTTON", typeAttr := none, visible := true, hidden := false }

/-- A page on which the fallback selector `input[name*="file"]` matches a
visible text input before a hidden file input, and every other selector
matches nothing. -/
def cexFallbackQuery : String → Option (List Elem) :=
  fun s =>
    if s == "input[name*=\"file\"]" then some [cexTextInput, cexHiddenFileInput]
    else some []

/-- A page whose only relevant element is a hidden resume file input
matched by the fallback selector `#_systemfield_resume`; the first
fallback selector matches nothing. -/
def wqHiddenResume : String → Option (List Elem) :=
  fun s =>
    if s == "#_systemfield_resume" then some [cexHiddenFileInput]
    else some []

/-- A fully healthy environment, specialized below. -/
def baseEnv : UploadEnv :=
  { filePath := "./resume.pdf"
  , selector := "#missing"
  , pageConnected := true
  , fileExists := true
  , networkidleOk := true
  , scrollFirstOk := true
  , debugQ1Ok := true
  , debugQ2Ok := true
  , primaryQuery := some []
  , afterClickFileInputs := some []
  , fallbackQuery := fun _ => some []
  , contentOk := true
  , bodyText := some ""
  , setFilesOk := true
  , setFilesErr := ""
  , verify := VerifyRead.ok [] }

/-- Environment where every resolution layer finds nothing. -/
def c6Env : UploadEnv := baseEnv

/-- Environment with zero file inputs anywhere: the primary selector
matches nothing and the only fallback match is a visible text input
(matched by `input[name*="file"]`); the verification read raises. -/
def c6bEnv : UploadEnv :=
  { baseEnv with
      fallbackQuery := fun s =>
        if s == "input[name*=\"file\"]" then some [cexTextInput] else some []
    , verify := VerifyRead.err }

/-- Check that no fallback selector matches any element of file kind on
the given page: the fallback list matches zero elements of the required
kind. -/
def noFileKindMatches (q : String → Option (List Elem)) : Bool :=
  fallback_selectors.all
    (fun s => ((q s).getD []).all (fun e => !(e.typeAttr == some "file")))

/-- Environment whose primary selector matches a single visible direct
file input and whose verification read-back returns the uploaded file. -/
def c2Env : UploadEnv :=
  { baseEnv with
      primaryQuery := some [cexVisibleFileInput]
    , verify := VerifyRead.ok ["resume.pdf"] }

/-- Environment for a nonexistent upload path. -/
def c3Env : UploadEnv :=
  { baseEnv with filePath := "./missing.pdf", fileExists := false }

/-! ## Helper lemmas -/

theorem pyIn_iff (n h : String) : pyIn n h = true ↔ n.data <:+: h.data := by
  simp [pyIn]

theorem joinComma_infix_of_mem :
    ∀ (files : List String) (f : String), f ∈ files →
      f.data <:+: (joinComma files).data := by
  intro files
  induction files with
  | nil => intro f hf; cases hf
  | cons s rest ih =>
      intro f hf
      rcases List.mem_cons.mp hf with rfl | hmem
      · cases rest with
        | nil => exact List.infix_refl _
        | cons r rs =>
            show f.data <:+: (f ++ ", " ++ joinComma (r :: rs)).data
            simp only [String.data_append, List.append_assoc]
            exact (List.prefix_append _ _).isInfix
      · cases rest with
        | nil => cases hmem
        | cons r rs =>
            have h1 := ih f hmem
            show f.data <:+: (s ++ ", " ++ joinComma (r :: rs)).data
            simp only [String.data_append]
            exact h1.trans (List.suffix_append _ _).isInfix

/-! ## C1: combobox option matching -/

/-- C1 (corrected): on the code, combobox option matching is
case-insensitive but one-directional for text: the target value must be
contained in the option text (prefix and equality are special cases);
exact case-insensitive equality with the `value` attribute also matches.
The reverse containment direction claimed by the spec is refuted by
`combobox_match_not_bidirectional`. -/
theorem combobox_match_target_in_text :
    (∀ (v t : String) (ov : Option String), t.isEmpty = false →
       pyIn (pyLower v) (pyLower t) = true →
       optionMatches v (some t) ov = true)
    ∧ (∀ (v : String) (ot : Option String) (val : String), val.isEmpty = false →
       pyLower v = pyLower val →
       optionMatches v ot (some val) = true)
    ∧ optionMatches "Senior" (some "Senior Engineer") none = true := by
  refine ⟨?_, ?_, by decide⟩
  · intro v t ov ht h
    simp [optionMatches, text_match, pyTruthy, ht, h]
  · intro v ot val hval h
    simp [optionMatches, value_match, pyTruthy, hval, h]

/-- Witness for `combobox_match_target_in_text` at the example of the
claim: target `"Senior"` against option text `"Senior Engineer"`. -/
theorem combobox_match_target_in_text_witness :
    ("Senior Engineer" : String).isEmpty = false
    ∧ pyIn (pyLower "Senior") (pyLower "Senior Engineer") = true
    ∧ optionMatches "Senior" (some "Senior Engineer") none = true :=
  ⟨by decide, by decide,
    combobox_match_target_in_text.1 "Senior" "Senior Engineer" none
      (by decide) (by decide)⟩

/-- Counterexample to C1 as stated: the spec claims option text contained
in the target also matches (target `"Senior Engineer II"` against option
text `"senior"`), but the code rejects that option: only the
target-in-option-text direction is checked at the option scan (the
either-direction overlap appears only in the later input-value
verification). -/
theorem combobox_match_not_bidirectional :
    pyIn (pyLower "senior") (pyLower "Senior Engineer II") = true
    ∧ optionMatches "Senior Engineer II" (some "senior") none = false
    ∧ comboboxVerifyOverlap "Senior Engineer II" "senior" = true := by
  decide

/-! ## C9: EvalName.from_str -/

/-- C9 (confirmed): `from_str` normalizes by replacing hyphens with
underscores and lowercasing, accepts a string whose normalization equals
a member value or a member name lowercased (which coincide), and raises
`ValueError` otherwise. -/
theorem from_str_normalization :
    (∀ m : EvalName, pyLower m.memberName = m.value)
    ∧ EvalName.from_str "FILE-UPLOAD" = .ok .FILE_UPLOAD
    ∧ EvalName.from_str "file_upload" = .ok .FILE_UPLOAD
    ∧ EvalName.from_str "File_Upload" = .ok .FILE_UPLOAD
    ∧ (∀ s, normalizeEvalName s = "auth_apply" →
        EvalName.from_str s = .ok .AUTH_APPLY)
    ∧ (∀ s, normalizeEvalName s = "file_upload" →
        EvalName.from_str s = .ok .FILE_UPLOAD)
    ∧ (∀ s, normalizeEvalName s ≠ "auth_apply" → normalizeEvalName s ≠ "file_upload" →
        EvalName.from_str s = .error (s ++ " is not a recognized evaluation name")) := by
  refine ⟨fun m => by cases m <;> rfl, rfl, rfl, rfl, ?_, ?_, ?_⟩
  · intro s h
    simp only [EvalName.from_str, h]
    rfl
  · intro s h
    simp only [EvalName.from_str, h]
    rfl
  · intro s h1 h2
    have hnone : EvalName.members.find?
        (fun m => m.value == normalizeEvalName s
          || pyLower m.memberName == normalizeEvalName s) = none := by
      rw [List.find?_eq_none]
      intro m hm
      cases m with
      | AUTH_APPLY =>
          have hred : pyLower EvalName.AUTH_APPLY.memberName = "auth_apply" := rfl
          simp only [EvalName.value, hred, Bool.or_self_left, Bool.not_eq_true,
            Bool.or_eq_true, beq_iff_eq]
          rintro (hh | hh) <;> exact h1 hh.symm
      | FILE_UPLOAD =>
          have hred : pyLower EvalName.FILE_UPLOAD.memberName = "file_upload" := rfl
          simp only [EvalName.value, hred, Bool.or_eq_true, beq_iff_eq]
          rintro (hh | hh) <;> exact h2 hh.symm
    simp [EvalName.from_str, hnone]

/-- Witness for `from_str_normalization`: `"AUTH-APPLY"` normalizes to
`"auth_apply"` and parses to `AUTH_APPLY`; `"bogus"` raises. -/
theorem from_str_normalization_witness :
    normalizeEvalName "AUTH-APPLY" = "auth_apply"
    ∧ EvalName.from_str "AUTH-APPLY" = .ok .AUTH_APPLY
    ∧ normalizeEvalName "bogus" ≠ "auth_apply"
    ∧ EvalName.from_str "bogus" = .error "bogus is not a recognized evaluation name" :=
  ⟨rfl, from_str_normalization.2.2.2.2.1 "AUTH-APPLY" rfl, by decide,
    from_str_normalization.2.2.2.2.2.2 "bogus" (by decide) (by decide)⟩

/-! ## C10: get_eval_subdir fallback -/

/-- C10 (confirmed): `get_eval_subdir` never propagates the parse
failure of an unrecognized evaluation-name string; it falls back to the
raw string as the subdirectory name, and canonicalizes recognized names
to the enum value.  (The model is a total function: the Python `except`
swallows the `ValueError`.) -/
theorem get_eval_subdir_fallback :
    (∀ s msg, EvalName.from_str s = .error msg →
       get_eval_subdir_name (.inr s) = s)
    ∧ (∀ s m, EvalName.from_str s = .ok m →
       get_eval_subdir_name (.inr s) = m.value)
    ∧ (∀ e : EvalName, get_eval_subdir_name (.inl e) = e.value) := by
  refine ⟨?_, ?_, fun e => rfl⟩
  · intro s msg h
    simp [get_eval_subdir_name, h]
  · intro s m h
    simp [get_eval_subdir_name, h]

/-- Witness for `get_eval_subdir_fallback`: an unrecognized name is used
verbatim; a recognized one is canonicalized. -/
theorem get_eval_subdir_fallback_witness :
    EvalName.from_str "custom-eval" = .error "custom-eval is not a recognized evaluation name"
    ∧ get_eval_subdir_name (.inr "custom-eval") = "custom-eval"
    ∧ get_eval_subdir_name (.inr "FILE-UPLOAD") = "file_upload" :=
  ⟨rfl, get_eval_subdir_fallback.1 "custom-eval" _ rfl,
    get_eval_subdir_fallback.2.1 "FILE-UPLOAD" .FILE_UPLOAD rfl⟩

/-! ## C7: duration formatting -/

/-- C7 (confirmed): the duration format chooses seconds below 60,
minutes from 60 up to 3600, hours from 3600 on, rendering the scaled
value with two decimals; the boundary inputs of the claim evaluate as
stated.  Durations are modelled as exact rationals; all inputs involved
compare to the thresholds exactly as their float counterparts do. -/
theorem format_time_units_and_boundaries :
    (∀ q : ℚ, q < 60 → format_time q = format2f q ++ " seconds")
    ∧ (∀ q : ℚ, 60 ≤ q → q < 3600 → format_time q = format2f (q / 60) ++ " minutes")
    ∧ (∀ q : ℚ, 3600 ≤ q → format_time q = format2f (q / 3600) ++ " hours")
    ∧ format_time ((59999 : ℚ) / 1000) = "60.00 seconds"
    ∧ format_time 60 = "1.00 minutes"
    ∧ format_time 3600 = "1.00 hours" := by
  refine ⟨?_, ?_, ?_, ?_, ?_, ?_⟩
  · intro q h
    simp [format_time, h]
  · intro q h1 h2
    simp [format_time, not_lt.mpr h1, h2]
  · intro q h
    have h60 : ¬ q < 60 := not_lt.mpr (le_trans (by norm_num) h)
    simp [format_time, h60, not_lt.mpr h]
  · rw [format_time]
    norm_num
    rw [format2f, roundHalfEven]
    norm_num
    decide
  · rw [format_time]
    norm_num
    rw [format2f, roundHalfEven]
    norm_num
    decide
  · rw [format_time]
    norm_num
    rw [format2f, roundHalfEven]
    norm_num
    decide

/-- Witness for `format_time_units_and_boundaries` at 30 seconds. -/
theorem format_time_units_witness :
    ((30 : ℚ) < 60) ∧ format_time 30 = format2f 30 ++ " seconds" :=
  ⟨by norm_num, format_time_units_and_boundaries.1 30 (by norm_num)⟩

/-! ## C3: missing file short-circuits before any page interaction -/

/-- C3 (confirmed): when the local file does not exist, the action
returns `Failure` with an empty page-interaction trace — no wait, query,
click, evaluate, screenshot or file assignment is performed, and there
is no retry (the function returns once). -/
theorem upload_missing_file_no_page_interaction (env : UploadEnv)
    (h : env.fileExists = false) :
    ∃ msg, playwright_file_upload env = (.failure msg, []) := by
  rw [playwright_file_upload]
  cases hp : env.pageConnected
  · exact ⟨"Playwright not connected. Run setup first.", by simp [hp]⟩
  · exact ⟨"File not found: " ++ env.filePath, by simp [hp, h]⟩

/-- Witness for `upload_missing_file_no_page_interaction` on a concrete
environment with a missing file. -/
theorem upload_missing_file_no_page_interaction_witness :
    c3Env.fileExists = false
    ∧ ∃ msg, playwright_file_upload c3Env = (.failure msg, []) :=
  ⟨rfl, upload_missing_file_no_page_interaction c3Env rfl⟩

/-! ## C4: selection among multiple primary-selector matches -/

/-- C4 (confirmed): among the matches of the primary selector, the first
one whose visibility check returns true is selected; if the check
returns true for none of them, the first match is used unconditionally.
In particular, when exactly one candidate is visible (and no check
raises), that candidate is selected regardless of where the hidden
candidates appear. -/
theorem resolver_selection_first_visible :
    (∀ (l₁ l₂ : List Elem) (e : Elem),
       (∀ x ∈ l₁, (!x.visThrows && x.visible) = false) →
       (!e.visThrows && e.visible) = true →
       selectFromMatches (l₁ ++ e :: l₂) = some e)
    ∧ (∀ ms : List Elem, (∀ x ∈ ms, (!x.visThrows && x.visible) = false) →
        selectFromMatches ms = ms.head?) := by
  constructor
  · intro l₁ l₂ e h1 he
    have hnone : l₁.find? (fun x => !x.visThrows && x.visible) = none :=
      List.find?_eq_none.mpr (fun x hx => by simp [h1 x hx])
    have hfind : (l₁ ++ e :: l₂).find? (fun x => !x.visThrows && x.visible) = some e := by
      rw [List.find?_append, hnone, Option.none_or]
      exact List.find?_cons_of_pos _ he
    simp [selectFromMatches, hfind]
  · intro ms h
    have hfind : ms.find? (fun x => !x.visThrows && x.visible) = none :=
      List.find?_eq_none.mpr (fun x hx => by simp [h x hx])
    simp [selectFromMatches, hfind]

/-- Witness for `resolver_selection_first_visible`: a hidden candidate
before the only visible one does not win. -/
theorem resolver_selection_first_visible_witness :
    (∀ x ∈ [cexHiddenFileInput], (!x.visThrows && x.visible) = false)
    ∧ selectFromMatches ([cexHiddenFileInput] ++ cexVisibleFileInput :: [])
        = some cexVisibleFileInput :=
  ⟨by decide,
    resolver_selection_first_visible.1 [cexHiddenFileInput] [] cexVisibleFileInput
      (by decide) (by decide)⟩

/-! ## C5: fallback selector scan -/

theorem scanFallbackMatches_clean :
    ∀ (ms : List Elem),
      (∀ x ∈ ms, x.attrThrows = false ∧ x.hidThrows = false) →
      ∀ p : Option Elem, scanFallbackMatches ms p = (ms.find? acceptsCleanly).or p := by
  intro ms
  induction ms with
  | nil => intro _ p; rfl
  | cons e rest ih =>
      intro hclean p
      obtain ⟨ha, hh⟩ := hclean e (List.mem_cons_self ..)
      have hrest : ∀ x ∈ rest, x.attrThrows = false ∧ x.hidThrows = false :=
        fun x hx => hclean x (List.mem_cons_of_mem _ hx)
      cases hfile : (e.typeAttr == some "file")
      · cases hhid : e.hidden
        · simp [scanFallbackMatches, ha, hh, hfile, hhid, List.find?_cons, acceptsCleanly]
        · simp [scanFallbackMatches, ha, hh, hfile, hhid, List.find?_cons, acceptsCleanly,
            ih hrest p]
      · simp [scanFallbackMatches, ha, hh, hfile, List.find?_cons, acceptsCleanly]

/-- Counterexample to C5 as stated: the fallback stage does not always
accept a file input — within the matches of the first succeeding
selector it accepts the first element that is a file input or merely
not hidden.  On a page where `input[name*="file"]` matches a visible
text input before a hidden file input, the stage accepts the text
input. -/
theorem fallback_accepts_nonfile_element :
    cexFallbackQuery "input[name*=\"file\"]" = some [cexTextInput, cexHiddenFileInput]
    ∧ cexHiddenFileInput.typeAttr = some "file"
    ∧ (fallbackStage cexFallbackQuery).1 = some cexTextInput
    ∧ cexTextInput.typeAttr ≠ some "file" := by
  exact ⟨rfl, rfl, rfl, by decide⟩

/-- C5 (corrected): the fallback stage scans the fixed selector list
strictly in order, stopping at the first selector whose match scan
assigns an element (the trace records exactly the selectors attempted).
On matches none of whose checks raise, the scan accepts the first
element that is an input of type `file` (hidden allowed) or any
non-hidden element; in particular a hidden input of type `file` is
accepted immediately.  A file-type match whose hidden-state read raises
is assigned provisionally: it is overwritten by a later accepted match
and kept when the list ends without one. -/
theorem fallback_ordered_first_success :
    (∀ (q : String → Option (List Elem)) (l₁ : List String) (sel : String)
        (l₂ : List String) (ms : List Elem) (e : Elem),
       (∀ s ∈ l₁, (q s).bind (fun ms2 => scanFallbackMatches ms2 none) = none) →
       q sel = some ms → scanFallbackMatches ms none = some e →
       fallbackGo q (l₁ ++ sel :: l₂) = (some e, (l₁ ++ [sel]).map PageOp.queryAll))
    ∧ (∀ (ms : List Elem),
        (∀ x ∈ ms, x.attrThrows = false ∧ x.hidThrows = false) →
        ∀ p : Option Elem, scanFallbackMatches ms p = (ms.find? acceptsCleanly).or p)
    ∧ (∀ e : Elem, acceptsCleanly e = true ↔ (e.typeAttr = some "file" ∨ e.hidden = false))
    ∧ (∀ (e : Elem) (rest : List Elem) (p : Option Elem),
        e.attrThrows = false → e.hidThrows = false → e.typeAttr = some "file" →
        scanFallbackMatches (e :: rest) p = some e)
    ∧ (∀ (e1 e2 : Elem) (p : Option Elem),
        e1.attrThrows = false → e1.typeAttr = some "file" → e1.hidThrows = true →
        scanFallbackMatches [e1] p = some e1
        ∧ (e2.attrThrows = false → e2.hidThrows = false → acceptsCleanly e2 = true →
            scanFallbackMatches [e1, e2] p = some e2)) := by
  refine ⟨?_, scanFallbackMatches_clean, ?_, ?_, ?_⟩
  · intro q l₁
    induction l₁ with
    | nil =>
        intro sel l₂ ms e _ hq hfind
        simp [fallbackGo, hq, hfind]
    | cons s ss ih =>
        intro sel l₂ ms e hnone hq hfind
        have hs : (q s).bind (fun ms2 => scanFallbackMatches ms2 none) = none :=
          hnone s (List.mem_cons_self ..)
        have hss : ∀ x ∈ ss, (q x).bind (fun ms2 => scanFallbackMatches ms2 none) = none :=
          fun x hx => hnone x (List.mem_cons_of_mem _ hx)
        have hrec := ih sel l₂ ms e hss hq hfind
        simp [fallbackGo, hs, hrec]
  · intro e
    simp [acceptsCleanly]
  · intro e rest p h1 h2 h3
    simp [scanFallbackMatches, h1, h2, h3]
  · intro e1 e2 p h1a h1f h1h
    constructor
    · simp [scanFallbackMatches, h1a, h1f, h1h]
    · intro h2a h2h hacc
      have hstep : scanFallbackMatches [e1, e2] p = scanFallbackMatches [e2] (some e1) := by
        simp [scanFallbackMatches, h1a, h1f, h1h]
      rw [hstep, scanFallbackMatches_clean [e2] (by simp [h2a, h2h]) (some e1)]
      simp [List.find?_cons, hacc]

/-- Witness for `fallback_ordered_first_success`: on a page whose only
match is a hidden resume file input under the second fallback selector
`#_systemfield_resume`, the stage scans the first selector, then the
second, and accepts the hidden file input. -/
theorem fallback_ordered_first_success_witness :
    cexHiddenFileInput.hidden = true
    ∧ cexHiddenFileInput.typeAttr = some "file"
    ∧ fallbackGo wqHiddenResume fallback_selectors
        = (some cexHiddenFileInput,
            [PageOp.queryAll "input[type=\"file\"]",
             PageOp.queryAll "#_systemfield_resume"]) := by
  refine ⟨rfl, rfl, ?_⟩
  have h := fallback_ordered_first_success.1 wqHiddenResume
    ["input[type=\"file\"]"] "#_systemfield_resume"
    ["input[id*=\"systemfield\"]", "input[id*=\"resume\"]", "input[name*=\"file\"]",
     "input[name*=\"resume\"]", "input[name*=\"upload\"]", "input[accept*=\"pdf\"]",
     "input[accept*=\"application\"]", ".file-input input",
     "[data-testid*=\"file\"] input", "[data-testid*=\"upload\"] input"]
    [cexHiddenFileInput] cexHiddenFileInput (by decide) rfl (by decide)
  exact h

/-! ## C6: NotFound outcome -/

theorem fallbackGo_none (q : String → Option (List Elem))
    (h : ∀ s, (q s).bind (fun ms => scanFallbackMatches ms none) = none) :
    ∀ sels : List String, (fallbackGo q sels).1 = none := by
  intro sels
  induction sels with
  | nil => rfl
  | cons s ss ih => simp [fallbackGo, h s, ih]

/-- Counterexample to C6 as stated, in both failure modes.  First, when
every resolution layer finds nothing the action does return a `Failure`,
but its message is not exactly `"No file input element found on the
page."` — the code appends a guidance sentence.  Second, the claimed
hypothesis does not suffice for the claimed outcome: on `c6bEnv` the
primary selector matches zero elements and the fallback list matches
zero elements of the required kind (no file input exists on the page),
yet the outcome is not the NotFound failure at all — the fallback scan
accepts the visible text input (lines 509-517) and the action proceeds
to upload through it, here ending in a degraded `Success`. -/
theorem notfound_counterexample :
    (playwright_file_upload c6Env).1 = .failure notFoundMsg
    ∧ notFoundMsg ≠ "No file input element found on the page."
    ∧ c6bEnv.primaryQuery = some []
    ∧ noFileKindMatches c6bEnv.fallbackQuery = true
    ∧ (playwright_file_upload c6bEnv).1
        = .success "File upload command executed for: ./resume.pdf. Verification failed but upload likely succeeded." := by
  refine ⟨rfl, by decide, rfl, by decide, rfl⟩

/-- C6 (corrected): when the primary selector matches zero elements and
no fallback selector's match scan assigns an element — a strictly
stronger hypothesis than "matches zero elements of the required kind",
which `notfound_counterexample` shows is insufficient, since the scan
also accepts visible non-file elements — the action returns the
`Failure` outcome whose message begins with
`"No file input element found on the page."` (the code appends a
guidance sentence, which the same counterexample shows is part of the
actual message); the model is a total function — every exception of the
resolution layers is handled internally, so nothing is raised to the
caller. -/
theorem resolver_notfound_failure (env : UploadEnv)
    (hp : env.pageConnected = true) (hf : env.fileExists = true)
    (hq : env.primaryQuery = some [])
    (hfb : ∀ s, (env.fallbackQuery s).bind (fun ms => scanFallbackMatches ms none) = none) :
    (playwright_file_upload env).1 = .failure notFoundMsg
    ∧ pyStartsWith notFoundMsg "No file input element found on the page." = true := by
  constructor
  · have hfbnone : (fallbackGo env.fallbackQuery fallback_selectors).1 = none :=
      fallbackGo_none env.fallbackQuery hfb fallback_selectors
    simp [playwright_file_upload, hp, hf, hq, primaryResolve, selectFromMatches,
      fallbackStage, hfbnone, notFoundStage]
  · decide

/-- Witness for `resolver_notfound_failure` on the concrete empty-page
environment. -/
theorem resolver_notfound_failure_witness :
    (playwright_file_upload c6Env).1 = .failure notFoundMsg
    ∧ pyStartsWith notFoundMsg "No file input element found on the page." = true :=
  resolver_notfound_failure c6Env rfl rfl rfl (fun _ => rfl)

/-! ## C2: verification read-back trichotomy -/

/-- C2 (confirmed): once a file input is resolved and the file has been
assigned, the outcome is decided by the verification read-back in
exactly three cases: a non-empty file list yields `Success` whose
message contains every file name; an empty list yields `Failure`; a
raising read yields a degraded `Success` noting the upload command was
executed but unverifiable.  The last conjunct ties the stage to the full
action. -/
theorem upload_verification_trichotomy :
    (∀ (path : String) (files : List String), files ≠ [] →
       uploadVerifyOutcome path (.ok files)
         = .success ("File(s) uploaded successfully using Playwright: " ++ joinComma files)
       ∧ ∀ f ∈ files,
           pyIn f ("File(s) uploaded successfully using Playwright: " ++ joinComma files) = true)
    ∧ (∀ path : String, uploadVerifyOutcome path (.ok [])
         = .failure "File upload may have failed - no files detected in input after upload attempt")
    ∧ (∀ path : String, uploadVerifyOutcome path .err
         = .success ("File upload command executed for: " ++ path
             ++ ". Verification failed but upload likely succeeded."))
    ∧ (∀ (env : UploadEnv) (e : Elem),
         env.pageConnected = true → env.fileExists = true →
         env.primaryQuery = some [e] → isDirectFileInput e = true →
         env.setFilesOk = true →
         (playwright_file_upload env).1 = uploadVerifyOutcome env.filePath env.verify) := by
  refine ⟨?_, fun path => rfl, fun path => rfl, ?_⟩
  · intro path files hne
    constructor
    · cases files with
      | nil => exact absurd rfl hne
      | cons a as => simp [uploadVerifyOutcome]
    · intro f hf
      rw [pyIn_iff]
      have h1 := joinComma_infix_of_mem files f hf
      simp only [String.data_append]
      exact h1.trans (List.suffix_append _ _).isInfix
  · intro env e hp hf hq hfile hset
    have hsel : selectFromMatches [e] = some e := by
      cases hpred : (!e.visThrows && e.visible)
      · simp [selectFromMatches, List.find?_cons, hpred]
      · simp [selectFromMatches, List.find?_cons, hpred]
    simp [playwright_file_upload, hp, hf, hq, primaryResolve, hsel, hfile,
      foundStage, hset]

/-- Witness for `upload_verification_trichotomy` on a concrete
environment whose read-back returns the uploaded file name. -/
theorem upload_verification_trichotomy_witness :
    (["resume.pdf"] ≠ ([] : List String))
    ∧ uploadVerifyOutcome "./resume.pdf" (.ok ["resume.pdf"])
        = .success ("File(s) uploaded successfully using Playwright: " ++ joinComma ["resume.pdf"])
    ∧ isDirectFileInput cexVisibleFileInput = true
    ∧ (playwright_file_upload c2Env).1 = uploadVerifyOutcome c2Env.filePath c2Env.verify := by
  refine ⟨by decide, ?_, by decide, ?_⟩
  · exact (upload_verification_trichotomy.1 "./resume.pdf" ["resume.pdf"] (by decide)).1
  · exact upload_verification_trichotomy.2.2.2 c2Env cexVisibleFileInput
      rfl rfl rfl (by decide) rfl

/-! ## C8: result file identity and overwrite -/

theorem pyStartsWith_append (a b : String) : pyStartsWith (a ++ b) a = true := by
  simp [pyStartsWith]

theorem filter_keys_ne (p : String) (fs : FS) :
    ∀ e ∈ List.filter (fun e => !(e.1 == p)) fs, (e.1 == p) = false := by
  intro e he
  have h := List.of_mem_filter he
  simpa using h

theorem lookup_append_key (p c : String) :
    ∀ l : List (String × String), (∀ e ∈ l, (e.1 == p) = false) →
      List.lookup p (l ++ [(p, c)]) = some c := by
  intro l
  induction l with
  | nil => simp [List.lookup]
  | cons e es ih =>
      intro h
      have he : (e.1 == p) = false := h e (List.mem_cons_self ..)
      have hne : (p == e.1) = false := by
        rw [beq_eq_false_iff_ne] at he ⊢
        exact fun hh => he hh.symm
      have hes : ∀ x ∈ es, (x.1 == p) = false :=
        fun x hx => h x (List.mem_cons_of_mem _ hx)
      cases e with
      | mk k v =>
          simp only [List.cons_append, List.lookup_cons, hne]
          exact ih hes

theorem lookup_fsWrite (fs : FS) (p c : String) :
    List.lookup p (fsWrite fs p c) = some c :=
  lookup_append_key p c _ (filter_keys_ne p fs)

theorem count_keys_fsWrite (fs : FS) (p c : String) :
    ((fsWrite fs p c).map Prod.fst).count p = 1 := by
  have h0 : p ∉ (List.filter (fun e => !(e.1 == p)) fs).map Prod.fst := by
    intro hmem
    rcases List.mem_map.mp hmem with ⟨e, he, hfst⟩
    have hne := filter_keys_ne p fs e he
    simp [hfst] at hne
  simp [fsWrite, List.map_append, List.count_append, List.count_eq_zero.mpr h0]

theorem count_strInsert (x y : String) (l : List String) :
    (strInsert x l).count y = (x :: l).count y := by
  induction l with
  | nil => rfl
  | cons z zs ih =>
      by_cases h : x ≤ z
      · simp [strInsert, h]
      · simp only [strInsert, if_neg h, List.count_cons, ih]
        omega

theorem count_sortStrings (l : List String) (y : String) :
    (sortStrings l).count y = l.count y := by
  induction l with
  | nil => rfl
  | cons x xs ih =>
      simp only [sortStrings, count_strInsert, List.count_cons, ih]

theorem count_filter_of_pos (p : String → Bool) (x : String) (hp : p x = true) :
    ∀ l : List String, (l.filter p).count x = l.count x := by
  intro l
  induction l with
  | nil => rfl
  | cons z zs ih =>
      cases hxz : (x == z)
      · have hxne : x ≠ z := by simpa using hxz
        cases hz : p z
        · simp [List.filter_cons, hz, List.count_cons, hxz, ih]
          exact fun hh => hxne hh.symm
        · simp [List.filter_cons, hz, List.count_cons, hxz, ih]
      · have hxzeq : x = z := by simpa using hxz
        have hz : p z = true := hxzeq ▸ hp
        simp [List.filter_cons, hz, List.count_cons, hxz, ih]

theorem filepath_pred (evalName : Sum EvalName String) (model : String) (t : Timestamp) :
    (pyStartsWith (save_result_filepath evalName model t) (evalSubdirPath evalName ++ "/")
      && pyEndsWith (save_result_filepath evalName model t) ".txt") = true := by
  rw [Bool.and_eq_true]
  constructor
  · exact pyStartsWith_append (evalSubdirPath evalName ++ "/") (generate_result_filename model t)
  · rw [pyEndsWith, decide_eq_true_eq]
    show (".txt" : String).data <:+ (save_result_filepath evalName model t).data
    simp only [save_result_filepath, generate_result_filename, String.data_append]
    exact (List.suffix_append _ _).trans (List.suffix_append _ _)

/-- C8 (confirmed): the result file path depends only on the sanitized
model name and the compact second-resolution timestamp, so recording
twice with the same `(model, timestamp)` yields the same path, the
second write replaces the first file content, and the subsequent listing
contains exactly one entry at that path. -/
theorem save_result_same_key_overwrites (fs : FS) (evalName : Sum EvalName String)
    (model : String) (t : Timestamp) (c1 c2 : String) :
    (save_result fs evalName model t c1).2
      = (save_result (save_result fs evalName model t c1).1 evalName model t c2).2
    ∧ List.lookup (save_result fs evalName model t c1).2
        (save_result (save_result fs evalName model t c1).1 evalName model t c2).1 = some c2
    ∧ (list_results (save_result (save_result fs evalName model t c1).1 evalName model t c2).1
        evalName).count (save_result fs evalName model t c1).2 = 1 := by
  refine ⟨rfl, lookup_fsWrite _ _ _, ?_⟩
  show (list_results (fsWrite (fsWrite fs (save_result_filepath evalName model t) c1)
      (save_result_filepath evalName model t) c2) evalName).count
      (save_result_filepath evalName model t) = 1
  rw [list_results, count_sortStrings,
    count_filter_of_pos _ _ (filepath_pred evalName model t),
    count_keys_fsWrite]
